import Mathlib

/-!
Verification of the Expense-Tracker backend (src/routes/expenseRoutes.js)
against its natural-language specification.

The route handlers are shallowly embedded as pure Lean functions over an
explicit store (a list of expense documents standing for the MongoDB
`expenses` collection).  Each definition mirrors one route handler or one
helper expression of the source file; JavaScript-specific semantics
(truthiness in `if (startDate && endDate)`, the `x || y` fallback in the
update handler, `parseInt`) are modelled explicitly.  Monetary amounts are
modelled as `Int` (the spec requires amounts "representable without
floating-point drift for summation") and dates as `Int` timestamps ordered
like the underlying date values.
-/

namespace ExpenseTracker

/-- One document of the `expenses` collection.  Fields are those the routes
read and write: Mongo `_id`, the owner reference `user`, and the payload
fields `description`, `amount`, `category`, `date`. -/
structure Expense where
  _id : Nat
  user : Nat
  description : String
  amount : Int
  category : String
  date : Int
  deriving DecidableEq

/-- JS truthiness of an optional string request parameter: `undefined`
(absent) and the empty string are falsy, every other string is truthy.
This is the test performed by `if (startDate && endDate)`. -/
def truthyStr : Option String → Bool
  | some s => s != ""
  | none => false

/-- JS `v || old` for an optional string body field: `undefined` and `""`
are falsy, so both fall back to `old`.  Used by the PUT handler's
`expense.description = description || expense.description`. -/
def jsOrStr : Option String → String → String
  | some v, old => if v = "" then old else v
  | none, old => old

/-- JS `v || old` for an optional numeric body field: `undefined` and `0`
are falsy, so both fall back to `old`.  Used by the PUT handler's
`expense.amount = amount || expense.amount`. -/
def jsOrInt : Option Int → Int → Int
  | some v, old => if v = 0 then old else v
  | none, old => old

/-- Numeric value of a decimal digit character. -/
def digitVal (c : Char) : Nat := c.toNat - 48

/-- Models `new Date(s)` on the calendar-date strings of the API contract
(`YYYY-MM-DD`, the format §4.2 of the spec names for `startDate`/`endDate`):
a well-formed ISO calendar date parses to an order-preserving integer
`y * 10000 + m * 100 + d`; any other string is modelled as JS
`Invalid Date`, represented by `none`.  (Real `new Date` accepts further
formats, but the API contract only ranges over calendar dates, and the
strings used as counterexamples below are Invalid Date in JS as well.) -/
def parseDate (s : String) : Option Int :=
  match s.toList with
  | [y1, y2, y3, y4, h1, m1, m2, h2, d1, d2] =>
    if h1 = '-' ∧ h2 = '-' ∧ [y1, y2, y3, y4, m1, m2, d1, d2].all Char.isDigit then
      some (Int.ofNat ((((digitVal y1 * 10 + digitVal y2) * 10 + digitVal y3) * 10
        + digitVal y4) * 10000 + (digitVal m1 * 10 + digitVal m2) * 100
        + (digitVal d1 * 10 + digitVal d2)))
    else none
  | _ => none

/-- The `filter.date = { $gte: new Date(startDate), $lte: new Date(endDate) }`
object.  A bound is `none` when the corresponding string did not parse
(JS `Invalid Date`). -/
structure DateRange where
  gte : Option Int
  lte : Option Int
  deriving DecidableEq

/-- The date part of the query filter, exactly as every handler builds it:
`if (startDate && endDate)` tests truthiness only, so the range is attached
whenever both parameters are present and non-empty, regardless of whether
they parse. -/
def buildFilterDate (startDate endDate : Option String) : Option DateRange :=
  if truthyStr startDate && truthyStr endDate then
    some { gte := parseDate (startDate.getD ""), lte := parseDate (endDate.getD "") }
  else none

/-- A date filter can be cast by Mongoose iff both of its bounds are valid
dates.  `Expense.find(filter)` casts the filter against the schema and an
`Invalid Date` bound throws a `CastError`, which the handler's `catch` maps
to the 500 `Server Error` response. -/
def rangeValid : Option DateRange → Bool
  | none => true
  | some r => r.gte.isSome && r.lte.isSome

/-- Aggregation pipelines are not cast by Mongoose; the BSON serializer
turns a JS Date into its millisecond value, and `Invalid Date` (NaN
milliseconds) serializes as 0, the epoch. -/
def bsonDate : Option Int → Int
  | some t => t
  | none => 0

/-- Whether a date satisfies the (optional) `$gte`/`$lte` range of the
filter, with invalid bounds serialized as the epoch as in an aggregation
`$match`. -/
def inRange (r : Option DateRange) (d : Int) : Bool :=
  match r with
  | none => true
  | some r => bsonDate r.gte ≤ d && d ≤ bsonDate r.lte

/-- The `$match` / `find` predicate of every read handler:
`{ user: req.user._id }` plus the optional date range. -/
def matchExpense (u : Nat) (r : Option DateRange) (e : Expense) : Bool :=
  e.user == u && inRange r e.date

/-- `.sort({ date: -1 })`: records ordered by date descending. -/
def sortByDateDesc (l : List Expense) : List Expense :=
  l.insertionSort (fun a b => b.date ≤ a.date)

/-- Outcome of the list route: the JSON array, or the 500 `Server Error`
envelope produced by the `catch` block. -/
inductive ListResult where
  | ok : List Expense → ListResult
  | serverError : ListResult
  deriving DecidableEq

/-- GET / : build `{ user, date? }` from the query, `Expense.find(filter)`
(which throws on an uncastable Invalid Date bound), `.sort({ date: -1 })`. -/
def getExpenses (store : List Expense) (userId : Nat)
    (startDate endDate : Option String) : ListResult :=
  let filter := buildFilterDate startDate endDate
  if rangeValid filter then
    ListResult.ok (sortByDateDesc (store.filter (matchExpense userId filter)))
  else
    ListResult.serverError

/-- One output row of the `$group: { _id: '$category', totalAmount, count }`
stage of the summary pipeline. -/
structure SummaryRow where
  _id : String
  totalAmount : Int
  count : Nat
  deriving DecidableEq

/-- `$sum: '$amount'` over a list of documents. -/
def sumAmounts (l : List Expense) : Int := (l.map Expense.amount).sum

/-- `$group: { _id: '$category', totalAmount: { $sum: '$amount' },
count: { $sum: 1 } }`: one row per distinct category of the input, carrying
the sum and the number of that category's documents.  (Mongo emits group
rows in unspecified order; the pipeline sorts them afterwards, so the
enumeration order of the distinct keys is immaterial.) -/
def groupByCategory (l : List Expense) : List SummaryRow :=
  (l.map Expense.category).dedup.map (fun c =>
    { _id := c
      totalAmount := sumAmounts (l.filter (fun e => e.category == c))
      count := (l.filter (fun e => e.category == c)).length })

/-- `$sort: { totalAmount: -1 }` on summary rows. -/
def sortByTotalDesc (rows : List SummaryRow) : List SummaryRow :=
  rows.insertionSort (fun a b => b.totalAmount ≤ a.totalAmount)

/-- GET /summary : `$match` the user's documents (with the optional date
range), group by category, sort by totalAmount descending. -/
def getSummary (store : List Expense) (userId : Nat)
    (startDate endDate : Option String) : List SummaryRow :=
  let filter := buildFilterDate startDate endDate
  sortByTotalDesc (groupByCategory (store.filter (matchExpense userId filter)))

/-- One output row of the top-categories pipeline's
`$group: { _id: '$category', totalAmount: { $sum: '$amount' } }`. -/
structure CategoryTotal where
  _id : String
  totalAmount : Int
  deriving DecidableEq

/-- The top-categories `$group` stage: one row per distinct category with
the summed amount. -/
def groupTotals (l : List Expense) : List CategoryTotal :=
  (l.map Expense.category).dedup.map (fun c =>
    { _id := c, totalAmount := sumAmounts (l.filter (fun e => e.category == c)) })

/-- `$sort: { totalAmount: -1 }` on category-total rows. -/
def sortTotalsDesc (rows : List CategoryTotal) : List CategoryTotal :=
  rows.insertionSort (fun a b => b.totalAmount ≤ a.totalAmount)

/-- Models JS `parseInt` on a request-parameter string: an optional sign
followed by a longest prefix of decimal digits; `NaN` (no digits to parse)
is modelled as `none`.  (`parseInt` also skips leading whitespace and
accepts hex prefixes; query parameters here are plain decimal strings.) -/
def parseIntJS (s : String) : Option Int :=
  let fromDigits : List Char → Option Int := fun ds =>
    if ds.isEmpty then none
    else some (Int.ofNat (ds.foldl (fun acc c => acc * 10 + digitVal c) 0))
  match s.toList with
  | '-' :: rest => (fromDigits (rest.takeWhile Char.isDigit)).map (fun n => -n)
  | cs => fromDigits (cs.takeWhile Char.isDigit)

/-- Outcome of the top-categories route: the JSON array of rows, or the
500 `Server Error` envelope produced by the `catch` block. -/
inductive TopResult where
  | ok : List CategoryTotal → TopResult
  | serverError : TopResult
  deriving DecidableEq

/-- GET /top-categories : `const { limit = 5, startDate, endDate } = req.query`
(the destructuring default applies only when the parameter is absent),
`$match`, `$group` by category, `$sort: { totalAmount: -1 }`,
`$limit: parseInt(limit)`.  MongoDB rejects a `$limit` argument that is not
a positive integer — `NaN` (non-numeric input), zero and negatives all make
the aggregate call throw, which the handler's `catch` maps to the 500
`Server Error` response. -/
def getTopCategories (store : List Expense) (userId : Nat)
    (limitParam startDate endDate : Option String) : TopResult :=
  let lim : Option Int :=
    match limitParam with
    | none => some 5
    | some s => parseIntJS s
  let filter := buildFilterDate startDate endDate
  match lim with
  | none => TopResult.serverError
  | some n =>
    if n ≤ 0 then TopResult.serverError
    else TopResult.ok
      ((sortTotalsDesc (groupTotals (store.filter (matchExpense userId filter)))).take n.toNat)

/-- The `$group: { _id: null, totalAmount: { $sum: '$amount' } }` stage of
the total pipeline: a single row over a non-empty input, no row at all over
an empty input. -/
def totalAggregate (l : List Expense) : List Int :=
  if l.isEmpty then [] else [sumAmounts l]

/-- GET /total : `$match`, group everything into one row, then
`totalSpending.length > 0 ? totalSpending[0].totalAmount : 0`. -/
def getTotal (store : List Expense) (userId : Nat)
    (startDate endDate : Option String) : Int :=
  let filter := buildFilterDate startDate endDate
  let totalSpending := totalAggregate (store.filter (matchExpense userId filter))
  match totalSpending with
  | [] => 0
  | t :: _ => t

/-- The body of a PUT /:id request:
`const { description, amount, category, date } = req.body`, each field
`none` when absent from the payload. -/
structure UpdateBody where
  description : Option String
  amount : Option Int
  category : Option String
  date : Option Int
  deriving DecidableEq

/-- Outcome of a mutating route: the 200 JSON value, or the 404
`{ message: ... }` envelope. -/
inductive ApiResult (α : Type) where
  | ok : α → ApiResult α
  | notFound : String → ApiResult α
  deriving DecidableEq

/-- `Expense.findById(id)`: the document with the given `_id`, if any. -/
def findById (store : List Expense) (id : Nat) : Option Expense :=
  store.find? (fun e => e._id == id)

/-- The four assignments of the PUT handler:
`expense.f = f || expense.f` for description, amount, category and date,
with JS falsy-fallback semantics.  The `user` field is not assigned. -/
def applyUpdate (b : UpdateBody) (e : Expense) : Expense :=
  { e with
    description := jsOrStr b.description e.description
    amount := jsOrInt b.amount e.amount
    category := jsOrStr b.category e.category
    date := jsOrInt b.date e.date }

/-- PUT /:id : find the document; if it is missing or its `user` differs
from the caller, answer 404 `Expense not found`; otherwise apply the four
falsy-fallback assignments and `save()` (persist the modified document
under its `_id`).  Returns the response and the store after the request. -/
def putExpense (store : List Expense) (userId : Nat) (id : Nat)
    (b : UpdateBody) : ApiResult Expense × List Expense :=
  match findById store id with
  | none => (ApiResult.notFound "Expense not found", store)
  | some e =>
    if e.user ≠ userId then (ApiResult.notFound "Expense not found", store)
    else
      let e2 := applyUpdate b e
      (ApiResult.ok e2, store.map (fun x => if x._id == id then e2 else x))

/-- DELETE /:id : find the document; if it is missing or its `user` differs
from the caller, answer 404 `Expense not found`; otherwise
`Expense.findByIdAndDelete(id)` and answer `Expense removed`. -/
def deleteExpense (store : List Expense) (userId : Nat) (id : Nat) :
    ApiResult String × List Expense :=
  match findById store id with
  | none => (ApiResult.notFound "Expense not found", store)
  | some e =>
    if e.user ≠ userId then (ApiResult.notFound "Expense not found", store)
    else (ApiResult.ok "Expense removed", store.filter (fun x => x._id != id))

/-! ### Order instances and basic facts about the sorting stages -/

instance : IsTotal Expense (fun a b => b.date ≤ a.date) :=
  ⟨fun a b => le_total b.date a.date⟩

instance : IsTrans Expense (fun a b => b.date ≤ a.date) :=
  ⟨fun _ _ _ h1 h2 => le_trans h2 h1⟩

instance : IsTotal SummaryRow (fun a b => b.totalAmount ≤ a.totalAmount) :=
  ⟨fun a b => le_total b.totalAmount a.totalAmount⟩

instance : IsTrans SummaryRow (fun a b => b.totalAmount ≤ a.totalAmount) :=
  ⟨fun _ _ _ h1 h2 => le_trans h2 h1⟩

instance : IsTotal CategoryTotal (fun a b => b.totalAmount ≤ a.totalAmount) :=
  ⟨fun a b => le_total b.totalAmount a.totalAmount⟩

instance : IsTrans CategoryTotal (fun a b => b.totalAmount ≤ a.totalAmount) :=
  ⟨fun _ _ _ h1 h2 => le_trans h2 h1⟩

lemma sortByDateDesc_perm (l : List Expense) : (sortByDateDesc l).Perm l :=
  List.perm_insertionSort _ l

lemma sortByDateDesc_sorted (l : List Expense) :
    (sortByDateDesc l).Pairwise (fun a b => b.date ≤ a.date) :=
  List.sorted_insertionSort _ l

lemma sortByTotalDesc_perm (rows : List SummaryRow) :
    (sortByTotalDesc rows).Perm rows :=
  List.perm_insertionSort _ rows

lemma sortTotalsDesc_perm (rows : List CategoryTotal) :
    (sortTotalsDesc rows).Perm rows :=
  List.perm_insertionSort _ rows

lemma sortTotalsDesc_sorted (rows : List CategoryTotal) :
    (sortTotalsDesc rows).Pairwise (fun a b => b.totalAmount ≤ a.totalAmount) :=
  List.sorted_insertionSort _ rows

/-- Restricting the store to the caller's own documents first does not
change what the `{ user: u, ... }` filter selects. -/
lemma filter_matchExpense_user (store : List Expense) (u : Nat) (r : Option DateRange) :
    (store.filter (fun x => x.user == u)).filter (matchExpense u r)
      = store.filter (matchExpense u r) := by
  rw [List.filter_filter]
  refine List.filter_congr ?_
  intro x _
  simp only [matchExpense]
  cases h : (x.user == u) <;> simp [h]

/-- With the date filter inactive, the match predicate is exactly the
ownership test. -/
lemma filter_matchExpense_none (store : List Expense) (u : Nat) :
    store.filter (matchExpense u none) = store.filter (fun e => e.user == u) := by
  refine List.filter_congr ?_
  intro x _
  simp [matchExpense, inRange]

/-- Mongo keeps `_id` unique; under that invariant `findById` pins down the
only document with the requested id. -/
lemma findById_unique (store : List Expense) (id : Nat) (e x : Expense)
    (hnd : (store.map Expense._id).Nodup)
    (hf : findById store id = some e) (hx : x ∈ store) (hid : x._id = id) :
    x = e := by
  induction store with
  | nil => cases hx
  | cons a l ih =>
    simp only [List.map_cons, List.nodup_cons] at hnd
    simp only [findById, List.find?_cons] at hf
    rcases List.mem_cons.mp hx with hxa | hxl
    · subst hxa
      have h2 : (x._id == id) = true := beq_iff_eq.mpr hid
      simp only [h2] at hf
      exact Option.some_injective _ hf
    · by_cases ha : a._id = id
      · exfalso
        apply hnd.1
        have hmem : x._id ∈ List.map Expense._id l := List.mem_map_of_mem Expense._id hxl
        rwa [hid, ← ha] at hmem
      · have h2 : (a._id == id) = false := by simp [ha]
        simp only [h2] at hf
        exact ih hnd.2 hf hxl

/-- Any row produced by the group-by-category stage carries the sum and the
count of exactly the input documents with its category. -/
lemma groupByCategory_row_spec (l : List Expense) (row : SummaryRow)
    (h : row ∈ groupByCategory l) :
    row.totalAmount = sumAmounts (l.filter (fun e => e.category == row._id))
    ∧ row.count = (l.filter (fun e => e.category == row._id)).length := by
  simp only [groupByCategory, List.mem_map] at h
  obtain ⟨c, _, rfl⟩ := h
  exact ⟨rfl, rfl⟩

/-- The spec's §8 scenario store: one owner (user 1) with
(food, 10, 2024-01-05), (food, 5, 2024-02-01), (travel, 20, 2024-01-20). -/
def exStore : List Expense :=
  [ { _id := 1, user := 1, description := "a", amount := 10, category := "food", date := 20240105 },
    { _id := 2, user := 1, description := "b", amount := 5, category := "food", date := 20240201 },
    { _id := 3, user := 1, description := "c", amount := 20, category := "travel", date := 20240120 } ]

/-- C1: Ownership isolation.  A record whose `user` field is owner `A` is
never contained in owner `B`'s list results; every read view computed for
`B` (list, category summary, total, top categories) equals the same view
computed over only `B`'s own records, so `B`'s responses are independent of
`A`'s records; and `B`'s update and delete attempts on `A`'s record answer
404 and leave the store unchanged. -/
theorem ownership_isolation (store : List Expense) (A B : Nat) (e : Expense)
    (heA : e.user = A) (hAB : A ≠ B) :
    (∀ sd ed l, getExpenses store B sd ed = ListResult.ok l → e ∉ l)
    ∧ (∀ sd ed, getExpenses store B sd ed
        = getExpenses (store.filter (fun x => x.user == B)) B sd ed)
    ∧ (∀ sd ed, getSummary store B sd ed
        = getSummary (store.filter (fun x => x.user == B)) B sd ed)
    ∧ (∀ sd ed, getTotal store B sd ed
        = getTotal (store.filter (fun x => x.user == B)) B sd ed)
    ∧ (∀ lp sd ed, getTopCategories store B lp sd ed
        = getTopCategories (store.filter (fun x => x.user == B)) B lp sd ed)
    ∧ (findById store e._id = some e →
        (∀ b, putExpense store B e._id b
          = (ApiResult.notFound "Expense not found", store))
        ∧ deleteExpense store B e._id
          = (ApiResult.notFound "Expense not found", store)) := by
  have huser : e.user ≠ B := heA ▸ hAB
  refine ⟨?_, ?_, ?_, ?_, ?_, ?_⟩
  · intro sd ed l h hmem
    simp only [getExpenses] at h
    split at h
    · cases h
      have h1 : e ∈ store.filter (matchExpense B (buildFilterDate sd ed)) :=
        (sortByDateDesc_perm _).mem_iff.mp hmem
      have h2 := (List.mem_filter.mp h1).2
      simp only [matchExpense, Bool.and_eq_true, beq_iff_eq] at h2
      exact huser h2.1
    · cases h
  · intro sd ed
    simp only [getExpenses, filter_matchExpense_user]
  · intro sd ed
    simp only [getSummary, filter_matchExpense_user]
  · intro sd ed
    simp only [getTotal, filter_matchExpense_user]
  · intro lp sd ed
    simp only [getTopCategories, filter_matchExpense_user]
  · intro hfind
    constructor
    · intro b
      simp only [putExpense, hfind]
      rw [if_pos huser]
    · simp only [deleteExpense, hfind]
      rw [if_pos huser]

/-- Witness for C1 at a concrete store: caller 2 cannot update or delete
user 1's record with id 1. -/
theorem ownership_isolation_witness :
    putExpense exStore 2 1
      { description := none, amount := some 99, category := none, date := none }
      = (ApiResult.notFound "Expense not found", exStore)
    ∧ deleteExpense exStore 2 1 = (ApiResult.notFound "Expense not found", exStore) :=
  have h := (ownership_isolation exStore 1 2
    { _id := 1, user := 1, description := "a", amount := 10, category := "food",
      date := 20240105 }
    rfl (by decide)).2.2.2.2.2 (by decide)
  ⟨h.1 { description := none, amount := some 99, category := none, date := none }, h.2⟩

/-- C2: Sum invariant.  Every row of the category-summary view carries as
`totalAmount` the arithmetic sum of `amount` over exactly the owner's
filtered records with that row's category, and as `count` their number; and
the total view returns the sum of `amount` over all of the owner's filtered
records regardless of category. -/
theorem summary_sum_invariant (store : List Expense) (u : Nat) (sd ed : Option String) :
    (∀ row ∈ getSummary store u sd ed,
      row.totalAmount
        = sumAmounts ((store.filter (matchExpense u (buildFilterDate sd ed))).filter
            (fun e => e.category == row._id))
      ∧ row.count
        = ((store.filter (matchExpense u (buildFilterDate sd ed))).filter
            (fun e => e.category == row._id)).length)
    ∧ getTotal store u sd ed
        = sumAmounts (store.filter (matchExpense u (buildFilterDate sd ed))) := by
  constructor
  · intro row hrow
    simp only [getSummary] at hrow
    exact groupByCategory_row_spec _ row ((sortByTotalDesc_perm _).mem_iff.mp hrow)
  · simp only [getTotal, totalAggregate]
    by_cases hF : store.filter (matchExpense u (buildFilterDate sd ed)) = []
    · simp [hF, sumAmounts]
    · simp [hF]

/-- Witness for C2 on the spec's §8 scenario: the travel row of the summary
sums exactly the travel records. -/
theorem summary_sum_invariant_witness :
    (⟨"travel", 20, 1⟩ : SummaryRow).totalAmount
      = sumAmounts ((exStore.filter (matchExpense 1 (buildFilterDate none none))).filter
          (fun e => e.category == (⟨"travel", 20, 1⟩ : SummaryRow)._id))
    ∧ (⟨"travel", 20, 1⟩ : SummaryRow).count
      = ((exStore.filter (matchExpense 1 (buildFilterDate none none))).filter
          (fun e => e.category == (⟨"travel", 20, 1⟩ : SummaryRow)._id)).length :=
  (summary_sum_invariant exStore 1 none none).1 ⟨"travel", 20, 1⟩ (by decide)

/-- C3: evaluation of the PUT handler at the failing input.  For an owned
record with amount 5 and description "lunch", a payload specifying
amount = 0 and description = "" leaves both fields at their prior values:
the `amount || expense.amount` fallback treats the falsy 0 and "" as
absent, while the claim (and spec §9, which flags this very behaviour as
the "falsy-value update bug") requires the stored amount to become 0 and
the description to become "". -/
theorem update_zero_amount_kept :
    putExpense
      [{ _id := 1, user := 7, description := "lunch", amount := 5,
         category := "food", date := 20240105 }] 7 1
      { description := some "", amount := some 0, category := none, date := none }
      = (ApiResult.ok
          { _id := 1, user := 7, description := "lunch", amount := 5,
            category := "food", date := 20240105 },
         [{ _id := 1, user := 7, description := "lunch", amount := 5,
            category := "food", date := 20240105 }]) := by decide

/-- C4 counterexample: with startDate present but unparseable and endDate
present and parseable, the list request does not succeed over the
unfiltered record set — the date filter is still activated and the Invalid
Date bound makes the request fail with the 500 Server Error response. -/
theorem date_filter_unparseable_counterexample :
    getExpenses exStore 1 (some "not-a-date") (some "2024-01-31")
      = ListResult.serverError
    ∧ getExpenses exStore 1 (some "not-a-date") (some "2024-01-31")
      ≠ ListResult.ok (sortByDateDesc (exStore.filter (fun e => e.user == 1))) := by
  decide

/-- C4 amended: the date-range filter is activated exactly when both
startDate and endDate are present and non-empty; parseability is not
checked.  Whenever either parameter is missing or empty, no date filter is
applied and the request succeeds over the owner's unfiltered record set. -/
theorem date_filter_activation (store : List Expense) (u : Nat)
    (sd ed : Option String) :
    (buildFilterDate sd ed).isSome = (truthyStr sd && truthyStr ed)
    ∧ ((truthyStr sd && truthyStr ed) = false →
        getExpenses store u sd ed
          = ListResult.ok (sortByDateDesc (store.filter (fun e => e.user == u)))
        ∧ getSummary store u sd ed
          = sortByTotalDesc (groupByCategory (store.filter (fun e => e.user == u)))
        ∧ getTotal store u sd ed
          = sumAmounts (store.filter (fun e => e.user == u))) := by
  constructor
  · simp only [buildFilterDate]
    cases h : (truthyStr sd && truthyStr ed) <;> simp [h]
  · intro h
    have hbf : buildFilterDate sd ed = none := by
      simp [buildFilterDate, h]
    refine ⟨?_, ?_, ?_⟩
    · simp only [getExpenses, hbf, rangeValid, if_true, filter_matchExpense_none]
    · simp only [getSummary, hbf, filter_matchExpense_none]
    · have := (summary_sum_invariant store u sd ed).2
      rwa [hbf, filter_matchExpense_none] at this

/-- Witness for C4's amended claim: with endDate present but startDate
missing, the list, summary and total views run unfiltered. -/
theorem date_filter_activation_witness :
    getExpenses exStore 1 none (some "2024-01-31")
      = ListResult.ok (sortByDateDesc (exStore.filter (fun e => e.user == 1)))
    ∧ getSummary exStore 1 none (some "2024-01-31")
      = sortByTotalDesc (groupByCategory (exStore.filter (fun e => e.user == 1)))
    ∧ getTotal exStore 1 none (some "2024-01-31")
      = sumAmounts (exStore.filter (fun e => e.user == 1)) :=
  (date_filter_activation exStore 1 none (some "2024-01-31")).2 (by decide)

/-- C5: Anti-enumeration NotFound policy.  Whether no record with the
requested id exists or the record exists but belongs to a different owner,
update and delete answer the identical 404 response
(message "Expense not found") and the store is unchanged, so the two cases
are indistinguishable to the caller and nothing is modified or removed. -/
theorem notFound_indistinguishable (store : List Expense) (u id : Nat)
    (b : UpdateBody)
    (h : findById store id = none
      ∨ ∃ e, findById store id = some e ∧ e.user ≠ u) :
    putExpense store u id b = (ApiResult.notFound "Expense not found", store)
    ∧ deleteExpense store u id = (ApiResult.notFound "Expense not found", store) := by
  rcases h with h | ⟨e, hf, hu⟩
  · constructor
    · simp [putExpense, h]
    · simp [deleteExpense, h]
  · constructor
    · simp only [putExpense, hf]
      rw [if_pos hu]
    · simp only [deleteExpense, hf]
      rw [if_pos hu]

/-- Witness for C5: both cases at concrete inputs — id 9 does not exist,
and id 1 exists but is owned by user 1 while the caller is user 2. -/
theorem notFound_indistinguishable_witness :
    (putExpense exStore 1 9 { description := none, amount := none, category := none, date := none }
        = (ApiResult.notFound "Expense not found", exStore)
      ∧ deleteExpense exStore 1 9 = (ApiResult.notFound "Expense not found", exStore))
    ∧ (putExpense exStore 2 1 { description := none, amount := none, category := none, date := none }
        = (ApiResult.notFound "Expense not found", exStore)
      ∧ deleteExpense exStore 2 1 = (ApiResult.notFound "Expense not found", exStore)) :=
  ⟨notFound_indistinguishable exStore 1 9
      { description := none, amount := none, category := none, date := none }
      (Or.inl (by decide)),
    notFound_indistinguishable exStore 2 1
      { description := none, amount := none, category := none, date := none }
      (Or.inr ⟨⟨1, 1, "a", 10, "food", 20240105⟩, by decide, by decide⟩)⟩

/-- C6: Empty-set total.  When the owner's filter matches zero records, the
total view returns the value 0 (the zero-result branch of the handler), not
an error and not an omitted field. -/
theorem total_empty_zero (store : List Expense) (u : Nat) (sd ed : Option String)
    (h : store.filter (matchExpense u (buildFilterDate sd ed)) = []) :
    getTotal store u sd ed = 0 := by
  simp [getTotal, totalAggregate, h]

/-- Witness for C6: user 2 owns nothing in the scenario store, so the total
view answers 0. -/
theorem total_empty_zero_witness : getTotal exStore 2 none none = 0 :=
  total_empty_zero exStore 2 none none (by decide)

/-- C7: List ordering.  Whenever the list view answers 200, the returned
array is sorted by date descending (newest first) and is a permutation of
exactly the owner's records matching the request's filter. -/
theorem list_ordered_desc (store : List Expense) (u : Nat) (sd ed : Option String)
    (l : List Expense) (h : getExpenses store u sd ed = ListResult.ok l) :
    l.Pairwise (fun a b => b.date ≤ a.date)
    ∧ l.Perm (store.filter (matchExpense u (buildFilterDate sd ed))) := by
  simp only [getExpenses] at h
  split at h
  · cases h
    exact ⟨sortByDateDesc_sorted _, sortByDateDesc_perm _⟩
  · cases h

/-- Witness for C7 on the scenario store: the unfiltered list comes back
newest first. -/
theorem list_ordered_desc_witness :
    ([⟨2, 1, "b", 5, "food", 20240201⟩, ⟨3, 1, "c", 20, "travel", 20240120⟩,
      ⟨1, 1, "a", 10, "food", 20240105⟩] : List Expense).Pairwise
        (fun a b => b.date ≤ a.date)
    ∧ ([⟨2, 1, "b", 5, "food", 20240201⟩, ⟨3, 1, "c", 20, "travel", 20240120⟩,
        ⟨1, 1, "a", 10, "food", 20240105⟩] : List Expense).Perm
        (exStore.filter (matchExpense 1 (buildFilterDate none none))) :=
  list_ordered_desc exStore 1 none none
    [⟨2, 1, "b", 5, "food", 20240201⟩, ⟨3, 1, "c", 20, "travel", 20240120⟩,
     ⟨1, 1, "a", 10, "food", 20240105⟩] (by decide)

/-- In a list sorted by a pairwise relation, every kept element of a prefix
is related to every element left out of that prefix. -/
lemma take_dominates {α : Type} {rel : α → α → Prop} {l : List α} (n : Nat)
    (h : l.Pairwise rel) :
    ∀ x ∈ l.take n, ∀ y ∈ l, y ∉ l.take n → rel x y := by
  intro x hx y hy hyn
  have hsplit : l.take n ++ l.drop n = l := List.take_append_drop n l
  have h2 : (l.take n ++ l.drop n).Pairwise rel := by rw [hsplit]; exact h
  have hy2 : y ∈ l.take n ++ l.drop n := by rw [hsplit]; exact hy
  rcases List.mem_append.mp hy2 with h' | h'
  · exact absurd h' hyn
  · exact (List.pairwise_append.mp h2).2.2 x hx y h'

/-- The truncated, totalAmount-descending category rows: at most `n` rows,
sorted descending, and every returned row's total dominates every group row
left out. -/
lemma topRows_spec (l : List Expense) (n : Nat) :
    ((sortTotalsDesc (groupTotals l)).take n).length ≤ n
    ∧ ((sortTotalsDesc (groupTotals l)).take n).Pairwise
        (fun a b => b.totalAmount ≤ a.totalAmount)
    ∧ ∀ r ∈ (sortTotalsDesc (groupTotals l)).take n,
        ∀ g ∈ groupTotals l, g ∉ (sortTotalsDesc (groupTotals l)).take n →
          g.totalAmount ≤ r.totalAmount := by
  refine ⟨?_, ?_, ?_⟩
  · rw [List.length_take]
    exact min_le_left _ _
  · exact List.Pairwise.sublist (List.take_sublist _ _) (sortTotalsDesc_sorted _)
  · intro r hr g hg hgn
    have hg2 : g ∈ sortTotalsDesc (groupTotals l) :=
      (sortTotalsDesc_perm _).mem_iff.mpr hg
    exact take_dominates n (sortTotalsDesc_sorted _) r hr g hg2 hgn

/-- One owner, six records over four distinct categories:
travel 40, food 30, rent 25, misc 5. -/
def topScenario : List Expense :=
  [ ⟨1, 1, "t1", 25, "travel", 20240101⟩,
    ⟨2, 1, "f1", 10, "food", 20240102⟩,
    ⟨3, 1, "f2", 20, "food", 20240103⟩,
    ⟨4, 1, "r1", 25, "rent", 20240104⟩,
    ⟨5, 1, "t2", 15, "travel", 20240105⟩,
    ⟨6, 1, "m1", 5, "misc", 20240106⟩ ]

/-- C8: Top-categories limit.  With the limit parameter absent, the view
returns at most 5 rows; with a parseable limit returning rows, at most that
many rows; in both cases the rows are sorted by totalAmount descending and
each returned row's total dominates every omitted category's total; and
with limit=2 over four distinct categories it returns exactly the 2 rows
with the highest summed amounts. -/
theorem top_categories_limit (store : List Expense) (u : Nat) (sd ed : Option String) :
    (∀ rows, getTopCategories store u none sd ed = TopResult.ok rows →
      rows.length ≤ 5
      ∧ rows.Pairwise (fun a b => b.totalAmount ≤ a.totalAmount)
      ∧ ∀ r ∈ rows,
          ∀ g ∈ groupTotals (store.filter (matchExpense u (buildFilterDate sd ed))),
            g ∉ rows → g.totalAmount ≤ r.totalAmount)
    ∧ (∀ s n rows, parseIntJS s = some n →
        getTopCategories store u (some s) sd ed = TopResult.ok rows →
        rows.length ≤ n.toNat
        ∧ rows.Pairwise (fun a b => b.totalAmount ≤ a.totalAmount)
        ∧ ∀ r ∈ rows,
            ∀ g ∈ groupTotals (store.filter (matchExpense u (buildFilterDate sd ed))),
              g ∉ rows → g.totalAmount ≤ r.totalAmount)
    ∧ getTopCategories topScenario 1 (some "2") none none
        = TopResult.ok [⟨"travel", 40⟩, ⟨"food", 30⟩] := by
  refine ⟨?_, ?_, by decide⟩
  · intro rows h
    simp only [getTopCategories] at h
    split at h
    · cases h
    · cases h
      exact topRows_spec _ _
  · intro s n rows hs h
    simp only [getTopCategories, hs] at h
    split at h
    · cases h
    · cases h
      exact topRows_spec _ _

/-- Witness for C8: limit=2 over the four-category scenario. -/
theorem top_categories_limit_witness :
    ([⟨"travel", 40⟩, ⟨"food", 30⟩] : List CategoryTotal).length ≤ (2 : Int).toNat
    ∧ ([⟨"travel", 40⟩, ⟨"food", 30⟩] : List CategoryTotal).Pairwise
        (fun a b => b.totalAmount ≤ a.totalAmount)
    ∧ ∀ r ∈ ([⟨"travel", 40⟩, ⟨"food", 30⟩] : List CategoryTotal),
        ∀ g ∈ groupTotals (topScenario.filter (matchExpense 1 (buildFilterDate none none))),
          g ∉ ([⟨"travel", 40⟩, ⟨"food", 30⟩] : List CategoryTotal) →
            g.totalAmount ≤ r.totalAmount :=
  (top_categories_limit topScenario 1 none none).2.1 "2" 2
    [⟨"travel", 40⟩, ⟨"food", 30⟩] (by decide) (by decide)

/-- C9: Non-numeric limit handling.  A limit parameter on which `parseInt`
yields NaN makes the top-categories request fail fast with the 500 Server
Error response (MongoDB rejects the NaN `$limit`); no result computed from
an undefined limit is ever returned. -/
theorem nonnumeric_limit_errors (store : List Expense) (u : Nat) (s : String)
    (sd ed : Option String) (h : parseIntJS s = none) :
    getTopCategories store u (some s) sd ed = TopResult.serverError := by
  simp [getTopCategories, h]

/-- Witness for C9: limit=abc answers the error response. -/
theorem nonnumeric_limit_errors_witness :
    getTopCategories exStore 1 (some "abc") none none = TopResult.serverError :=
  nonnumeric_limit_errors exStore 1 "abc" none none (by decide)

/-- C10: the owner field is never rewritten by update.  Under Mongo's
`_id`-uniqueness invariant, a successful update answers a record whose
`user` equals the caller and equals the stored record's prior `user`, and
the owner column of the whole store is unchanged. -/
theorem update_preserves_owner (store : List Expense) (u id : Nat) (b : UpdateBody)
    (e2 : Expense) (store2 : List Expense)
    (hnd : (store.map Expense._id).Nodup)
    (h : putExpense store u id b = (ApiResult.ok e2, store2)) :
    e2.user = u
    ∧ (∃ e, findById store id = some e ∧ e2.user = e.user ∧ e2._id = e._id)
    ∧ store2.map Expense.user = store.map Expense.user := by
  simp only [putExpense] at h
  cases hf : findById store id with
  | none =>
    simp only [hf] at h
    simp at h
  | some e =>
    simp only [hf] at h
    by_cases hu : e.user ≠ u
    · rw [if_pos hu] at h
      simp at h
    · rw [if_neg hu] at h
      push_neg at hu
      rw [Prod.mk.injEq] at h
      obtain ⟨h1, h2⟩ := h
      have he2 : applyUpdate b e = e2 := by
        injection h1
      subst he2
      subst h2
      refine ⟨hu, ⟨e, rfl, rfl, rfl⟩, ?_⟩
      rw [List.map_map]
      apply List.map_congr_left
      intro x hx
      by_cases hxid : x._id = id
      · have hxe : x = e := findById_unique store id e x hnd hf hx hxid
        subst hxe
        simp only [Function.comp_apply, beq_iff_eq, hxid, if_true]
        rfl
      · simp only [Function.comp_apply, beq_iff_eq, hxid, if_false]

/-- Witness for C10: a successful concrete update changes the amount but
not the owner column. -/
theorem update_preserves_owner_witness :
    ({ _id := 1, user := 1, description := "a", amount := 99, category := "food",
       date := 20240105 } : Expense).user = 1
    ∧ (∃ e, findById exStore 1 = some e
        ∧ ({ _id := 1, user := 1, description := "a", amount := 99, category := "food",
             date := 20240105 } : Expense).user = e.user
        ∧ ({ _id := 1, user := 1, description := "a", amount := 99, category := "food",
             date := 20240105 } : Expense)._id = e._id)
    ∧ ([⟨1, 1, "a", 99, "food", 20240105⟩, ⟨2, 1, "b", 5, "food", 20240201⟩,
        ⟨3, 1, "c", 20, "travel", 20240120⟩] : List Expense).map Expense.user
        = exStore.map Expense.user :=
  update_preserves_owner exStore 1 1
    { description := none, amount := some 99, category := none, date := none }
    ⟨1, 1, "a", 99, "food", 20240105⟩
    [⟨1, 1, "a", 99, "food", 20240105⟩, ⟨2, 1, "b", 5, "food", 20240201⟩,
     ⟨3, 1, "c", 20, "travel", 20240120⟩]
    (by decide) (by decide)

end ExpenseTracker
